import Mathlib

/-!
Shallow embedding of the per-frame update system of
src/examples/transparent_texture/main.rs (the ExampleSystem of the
transparent_texture example), together with proofs of the specified
properties of that system.

Machine floating-point numbers (f32) are embedded as real numbers, except
for the sampled FPS value that is only read and printed, which is embedded
as its exact rational value so that the decimal formatting is computable.
Frame counters (u64) are embedded as natural numbers.  Entities are opaque
identifiers, embedded as natural numbers.  Component storages are embedded
as partial maps from entities, and the ECS join over two storages as the
pointwise update of every entity present in both.
-/

/-- An ECS entity identifier. -/
abbrev Entity := ℕ

/-- Modelled from the spec: the clock reading, providing elapsed seconds
since the previous tick and a monotonically increasing frame counter
(amethyst Time, outside src/). -/
structure Time where
  delta_seconds : ℝ
  frame_number : ℕ

/-- A direct isometry of 3-space, as in the nalgebra library used by the
source: a rotation part together with a translation vector.  The rotation
part is embedded as a 3 x 3 real matrix (the rotation matrix of the unit
quaternion the source stores). -/
structure Isometry3 where
  rotation : Matrix (Fin 3) (Fin 3) ℝ
  translation : Fin 3 → ℝ

/-- Modelled from the spec: a transform component carries an orientation
and a translation (jointly its isometry, the nalgebra Isometry3 value that
the source reads and writes through transform.isometry_mut) and a separate
scale vector (amethyst Transform, outside src/). -/
structure Transform where
  iso : Isometry3
  scale : Fin 3 → ℝ

/-- The rotation matrix of UnitQuaternion::from_axis_angle(Vector3::z_axis(), angle):
a rotation of the given angle about the z axis. -/
noncomputable def fromAxisAngleZ (angle : ℝ) : Matrix (Fin 3) (Fin 3) ℝ :=
  !![Real.cos angle, -Real.sin angle, 0;
     Real.sin angle,  Real.cos angle, 0;
     0,               0,              1]

/-- The nalgebra product of a unit quaternion (here already a rotation
matrix) with an isometry: Isometry::from_parts(self * right.translation.vector,
self * right.rotation).  Both the rotation part and the translation vector
are rotated. -/
def quatMulIsometry (q : Matrix (Fin 3) (Fin 3) ℝ) (iso : Isometry3) : Isometry3 :=
  ⟨q * iso.rotation, q.mulVec iso.translation⟩

/-- The DemoState resource of main.rs: the accumulated camera angle. -/
structure DemoState where
  camera_angle : ℝ

/-- Modelled from the spec: a text-display component; only its text
content is read or written by the system (amethyst UiText, outside src/). -/
structure UiText where
  text : String
deriving DecidableEq

/-- Modelled from the spec: the FPS sampler; sampled_fps returns the
current estimate, a machine float embedded by its exact rational value
(amethyst FPSCounter, outside src/). -/
structure FPSCounter where
  sampled_fps : ℚ

/-- Round the fraction a over b (with b positive) to the nearest integer,
ties to even, as the decimal formatting of the Rust standard library does:
floor the quotient, then compare the doubled remainder with the divisor. -/
def roundDiv (a : ℤ) (b : ℤ) : ℤ :=
  let f := a.fdiv b
  let r := a - f * b
  if 2 * r < b then f
  else if b < 2 * r then f + 1
  else if f % 2 = 0 then f else f + 1

/-- Print a natural number below 100 with exactly two digits. -/
def pad2 (m : ℕ) : String := if m < 10 then "0" ++ toString m else toString m

/-- The fixed-point decimal formatting of a rational with two digits after
the point, as produced for the value by the Rust format specifier used in
the source (precision 2, round to nearest, ties to even): the integer
nearest to q times 100, printed with the last two digits after the point. -/
def fmtFixed2 (q : ℚ) : String :=
  let n := roundDiv (q.num * 100) (q.den : ℤ)
  let sign := if n < 0 then "-" else ""
  let m := n.natAbs
  sign ++ toString (m / 100) ++ "." ++ pad2 (m % 100)

/-- The per-tick inputs the system reads from the engine: the clock, the
camera-marker storage, the FPS sampler, and the UiFinder name lookup. -/
structure TickInput where
  time : Time
  camera : Entity → Bool
  fps_counter : FPSCounter
  finder : String → Option Entity

/-- The state the system reads and writes across a tick: the transform
storage, the DemoState resource, the text-display storage, and the cached
fps_display handle owned by the ExampleSystem value itself. -/
structure WorldState where
  transforms : Entity → Option Transform
  state : DemoState
  ui_text : Entity → Option UiText
  fps_display : Option Entity

/-- The body of ExampleSystem::run from main.rs, lines 184 to 213:
advance the accumulated camera angle, left-multiply the isometry of every
camera-tagged transform by the incremental z rotation, lazily resolve the
fps_text handle, and every twentieth frame overwrite the resolved text
component with the formatted sampled FPS. -/
noncomputable def ExampleSystem.run (tk : TickInput) (w : WorldState) : WorldState :=
  let camera_angular_velocity : ℝ := 0.1
  let state1 : DemoState :=
    ⟨w.state.camera_angle + camera_angular_velocity * tk.time.delta_seconds⟩
  let delta_rot : Matrix (Fin 3) (Fin 3) ℝ :=
    fromAxisAngleZ (camera_angular_velocity * tk.time.delta_seconds)
  let transforms1 : Entity → Option Transform := fun e =>
    match w.transforms e with
    | none => none
    | some t =>
      if tk.camera e then some { t with iso := quatMulIsometry delta_rot t.iso }
      else some t
  let fps_display1 : Option Entity :=
    match w.fps_display with
    | none => tk.finder "fps_text"
    | some e => some e
  let ui_text1 : Entity → Option UiText :=
    match fps_display1 with
    | none => w.ui_text
    | some fps_entity =>
      match w.ui_text fps_entity with
      | none => w.ui_text
      | some _ =>
        if tk.time.frame_number % 20 = 0 then
          fun e =>
            if e = fps_entity then
              some ⟨"FPS: " ++ fmtFixed2 tk.fps_counter.sampled_fps⟩
            else w.ui_text e
        else w.ui_text
  ⟨transforms1, state1, ui_text1, fps_display1⟩

/-- Iterated ticks: run the system once for each input in the list, from
left to right, threading the world state. -/
noncomputable def ExampleSystem.runSeq (ticks : List TickInput) (w : WorldState) : WorldState :=
  ticks.foldl (fun acc tk => ExampleSystem.run tk acc) w

/-- The total elapsed time over a sequence of ticks. -/
def totalDelta (ticks : List TickInput) : ℝ :=
  (ticks.map fun tk => tk.time.delta_seconds).sum

/-- The exact rational value of the IEEE-754 single-precision float
nearest to 62.345, the FPS sample of the specified formatting test case. -/
def fpsLit : ℚ := mkRat 2042921 32768

/-- A concrete tick input: one second elapsed, the given frame number, no
camera entities, FPS sample fpsLit, failing name lookup. -/
noncomputable def tkFrame (n : ℕ) : TickInput :=
  { time := ⟨1, n⟩, camera := fun _ => false,
    fps_counter := ⟨fpsLit⟩, finder := fun _ => none }

/-- A concrete tick input: ten seconds elapsed, frame number 1, every
entity camera-tagged, FPS sample fpsLit, failing name lookup. -/
noncomputable def tkTen : TickInput :=
  { time := ⟨10, 1⟩, camera := fun _ => true,
    fps_counter := ⟨fpsLit⟩, finder := fun _ => none }

/-- A concrete tick input whose name lookup resolves every name to the
given entity. -/
noncomputable def tkFind (k : Entity) : TickInput :=
  { time := ⟨1, 1⟩, camera := fun _ => false,
    fps_counter := ⟨fpsLit⟩, finder := fun _ => some k }

/-- A concrete transform: identity orientation, unit translation along the
x axis, uniform scale one. -/
noncomputable def trUnitX : Transform :=
  ⟨⟨1, ![1, 0, 0]⟩, ![1, 1, 1]⟩

/-- A concrete world: entity 0 carries trUnitX and an empty text display,
accumulated angle zero, handle already resolved to entity 0. -/
noncomputable def wUi : WorldState :=
  { transforms := fun e => if e = 0 then some trUnitX else none,
    state := ⟨0⟩,
    ui_text := fun e => if e = 0 then some ⟨""⟩ else none,
    fps_display := some 0 }

/-- A concrete world like wUi but with the handle still unresolved. -/
noncomputable def wNone : WorldState :=
  { transforms := fun e => if e = 0 then some trUnitX else none,
    state := ⟨0⟩,
    ui_text := fun e => if e = 0 then some ⟨""⟩ else none,
    fps_display := none }

/-! ## Helper lemmas about the embedded system -/

/-- Composing two z-axis rotations adds their angles. -/
theorem fromAxisAngleZ_mul (a b : ℝ) :
    fromAxisAngleZ a * fromAxisAngleZ b = fromAxisAngleZ (a + b) := by
  ext i j
  fin_cases i <;> fin_cases j <;>
    simp [fromAxisAngleZ, Matrix.mul_apply, Fin.sum_univ_three,
      Real.cos_add, Real.sin_add] <;> ring

/-- The z-axis rotation by angle zero is the identity matrix. -/
theorem fromAxisAngleZ_zero : fromAxisAngleZ 0 = 1 := by
  ext i j
  fin_cases i <;> fin_cases j <;>
    simp [fromAxisAngleZ, Matrix.one_apply, Matrix.vecHead, Matrix.vecTail]

/-- One tick applied to an entity with a camera marker and a transform:
the whole isometry is left-multiplied by the incremental rotation and the
scale is kept. -/
theorem run_transform_camera (tk : TickInput) (w : WorldState) (e : Entity)
    (tr : Transform) (hc : tk.camera e = true) (ht : w.transforms e = some tr) :
    (ExampleSystem.run tk w).transforms e =
      some ⟨⟨fromAxisAngleZ (0.1 * tk.time.delta_seconds) * tr.iso.rotation,
             (fromAxisAngleZ (0.1 * tk.time.delta_seconds)).mulVec tr.iso.translation⟩,
            tr.scale⟩ := by
  simp [ExampleSystem.run, ht, hc, quatMulIsometry]

/-- One tick applied to an entity without a transform leaves it absent. -/
theorem run_transform_none (tk : TickInput) (w : WorldState) (e : Entity)
    (ht : w.transforms e = none) :
    (ExampleSystem.run tk w).transforms e = none := by
  simp [ExampleSystem.run, ht]

/-- One tick applied to an entity lacking the camera marker or the
transform component leaves its transform entry unchanged. -/
theorem run_transform_skip (tk : TickInput) (w : WorldState) (e : Entity)
    (h : ¬(tk.camera e = true ∧ (w.transforms e).isSome = true)) :
    (ExampleSystem.run tk w).transforms e = w.transforms e := by
  cases ht : w.transforms e with
  | none => simp [ExampleSystem.run, ht]
  | some tr =>
    have hc : tk.camera e = false := by
      rcases Bool.eq_false_or_eq_true (tk.camera e) with h1 | h1
      · exact absurd ⟨h1, by simp [ht]⟩ h
      · exact h1
    simp [ExampleSystem.run, ht, hc]

/-- The cached handle after one tick, as a function of the cache and the
lookup. -/
theorem run_fps_display (tk : TickInput) (w : WorldState) :
    (ExampleSystem.run tk w).fps_display =
      match w.fps_display with
      | none => tk.finder "fps_text"
      | some e => some e := rfl

/-- The text-display store after one tick, as a function of the inputs. -/
theorem run_ui_text_def (tk : TickInput) (w : WorldState) :
    (ExampleSystem.run tk w).ui_text =
      match (match w.fps_display with
             | none => tk.finder "fps_text"
             | some e => some e) with
      | none => w.ui_text
      | some fps_entity =>
        match w.ui_text fps_entity with
        | none => w.ui_text
        | some _ =>
          if tk.time.frame_number % 20 = 0 then
            fun e =>
              if e = fps_entity then
                some ⟨"FPS: " ++ fmtFixed2 tk.fps_counter.sampled_fps⟩
              else w.ui_text e
          else w.ui_text := rfl

/-- Unfolding one tick of an iterated run. -/
theorem runSeq_cons (tk : TickInput) (ticks : List TickInput) (w : WorldState) :
    ExampleSystem.runSeq (tk :: ticks) w =
      ExampleSystem.runSeq ticks (ExampleSystem.run tk w) := rfl

/-- A resolved handle survives any sequence of ticks unchanged. -/
theorem runSeq_fps_some (ticks : List TickInput) (w : WorldState) (e : Entity)
    (h : w.fps_display = some e) :
    (ExampleSystem.runSeq ticks w).fps_display = some e := by
  induction ticks generalizing w with
  | nil => exact h
  | cons tk ticks ih =>
    rw [runSeq_cons]
    exact ih _ (by rw [run_fps_display, h])

/-- Starting unresolved, the handle after a sequence of ticks is the
result of the first successful lookup in the sequence, if any. -/
theorem runSeq_fps_none (ticks : List TickInput) (w : WorldState)
    (h : w.fps_display = none) :
    (ExampleSystem.runSeq ticks w).fps_display =
      ticks.findSome? fun tk => tk.finder "fps_text" := by
  induction ticks generalizing w with
  | nil => exact h
  | cons tk ticks ih =>
    rw [runSeq_cons, List.findSome?_cons]
    cases hf : tk.finder "fps_text" with
    | none => exact ih _ (by rw [run_fps_display, h, hf])
    | some e => exact runSeq_fps_some ticks _ e (by rw [run_fps_display, h, hf])

/-- A tick whose lookup fails, on an unresolved cache, leaves the
text-display store and the cache unchanged. -/
theorem run_ui_unfound (tk : TickInput) (w : WorldState)
    (h0 : w.fps_display = none) (hf : tk.finder "fps_text" = none) :
    (ExampleSystem.run tk w).ui_text = w.ui_text ∧
      (ExampleSystem.run tk w).fps_display = none := by
  constructor
  · rw [run_ui_text_def, h0, hf]
  · rw [run_fps_display, h0, hf]

/-- Over a sequence of ticks whose lookups all fail, starting unresolved,
the text-display store is unchanged and the cache stays unresolved. -/
theorem runSeq_ui_unfound (ticks : List TickInput) (w : WorldState)
    (h0 : w.fps_display = none)
    (hn : ∀ tk ∈ ticks, tk.finder "fps_text" = none) :
    (ExampleSystem.runSeq ticks w).ui_text = w.ui_text ∧
      (ExampleSystem.runSeq ticks w).fps_display = none := by
  induction ticks generalizing w with
  | nil => exact ⟨rfl, h0⟩
  | cons tk ticks ih =>
    rw [runSeq_cons]
    obtain ⟨hu, hd⟩ := run_ui_unfound tk w h0 (hn tk (List.mem_cons_self tk ticks))
    obtain ⟨hu2, hd2⟩ := ih _ hd (fun t htm => hn t (List.mem_cons_of_mem tk htm))
    exact ⟨hu2.trans hu, hd2⟩

/-- Over a sequence of ticks on all of which the entity is camera-tagged,
the isometry is left-multiplied by the z rotation of angle 0.1 times the
total elapsed time, and the scale is kept. -/
theorem runSeq_transform_camera (ticks : List TickInput) (w : WorldState)
    (e : Entity) (tr : Transform)
    (hc : ∀ tk ∈ ticks, tk.camera e = true)
    (ht : w.transforms e = some tr) :
    (ExampleSystem.runSeq ticks w).transforms e =
      some ⟨⟨fromAxisAngleZ (0.1 * totalDelta ticks) * tr.iso.rotation,
             (fromAxisAngleZ (0.1 * totalDelta ticks)).mulVec tr.iso.translation⟩,
            tr.scale⟩ := by
  induction ticks generalizing w tr with
  | nil =>
    simp only [ExampleSystem.runSeq, List.foldl_nil, totalDelta, List.map_nil,
      List.sum_nil, mul_zero, fromAxisAngleZ_zero, Matrix.one_mul,
      Matrix.one_mulVec]
    rw [ht]
  | cons tk ticks ih =>
    rw [runSeq_cons]
    have h1 := run_transform_camera tk w e tr (hc tk (List.mem_cons_self tk ticks)) ht
    have h2 := ih (ExampleSystem.run tk w) _
      (fun t htm => hc t (List.mem_cons_of_mem tk htm)) h1
    rw [h2]
    have hangle : 0.1 * totalDelta ticks + 0.1 * tk.time.delta_seconds
        = 0.1 * totalDelta (tk :: ticks) := by
      simp only [totalDelta, List.map_cons, List.sum_cons]
      ring
    simp only [Matrix.mulVec_mulVec, ← Matrix.mul_assoc, fromAxisAngleZ_mul, hangle]

/-! ## Claim theorems -/

/-- C1: for every tick with elapsed time t at least zero, running the
update system increases the accumulated camera angle by exactly 0.1 times
t, and changes the DemoState resource in no other way. -/
theorem C1_camera_angle_increment (tk : TickInput) (w : WorldState)
    (h : 0 ≤ tk.time.delta_seconds) :
    (ExampleSystem.run tk w).state =
      ⟨w.state.camera_angle + 0.1 * tk.time.delta_seconds⟩ := rfl

theorem C1_camera_angle_increment_witness :
    0 ≤ tkTen.time.delta_seconds ∧
      (ExampleSystem.run tkTen wUi).state =
        ⟨wUi.state.camera_angle + 0.1 * tkTen.time.delta_seconds⟩ :=
  ⟨by norm_num [tkTen], C1_camera_angle_increment tkTen wUi (by norm_num [tkTen])⟩

/-- C2 as stated is false on the code: at a concrete tick of ten elapsed
seconds, on a camera entity whose transform has identity orientation and
unit translation along the x axis, the update changes the translation
component (the left multiplication rotates the whole isometry, so the
translation vector is rotated as well). -/
theorem C2_counterexample :
    ¬ (Option.map (fun t => t.iso.translation)
          ((ExampleSystem.run tkTen wUi).transforms 0)
        = Option.map (fun t => t.iso.translation) (wUi.transforms 0)) := by
  intro h
  rw [run_transform_camera tkTen wUi 0 trUnitX rfl rfl] at h
  have hw : wUi.transforms 0 = some trUnitX := rfl
  rw [hw] at h
  have h1 := congrFun (Option.some.inj h) 1
  simp [trUnitX, fromAxisAngleZ, Matrix.mulVec, Matrix.dotProduct,
    Fin.sum_univ_three, Matrix.cons_val_zero, Matrix.cons_val_one,
    Matrix.head_cons] at h1
  have h10 : (0.1 : ℝ) * tkTen.time.delta_seconds = 1 := by norm_num [tkTen]
  rw [h10] at h1
  have hpi := Real.pi_gt_three
  have hsin : 0 < Real.sin 1 :=
    Real.sin_pos_of_pos_of_lt_pi one_pos (by linarith)
  linarith

/-- C2 (amended): for every camera entity, the per-tick update is a left
multiplication of the whole isometry by the incremental rotation: the
orientation becomes the incremental rotation times the orientation, the
translation vector is rotated by the incremental rotation, and the scale
component is unchanged. -/
theorem C2_left_mul_isometry (tk : TickInput) (w : WorldState) (e : Entity)
    (tr : Transform) (hc : tk.camera e = true) (ht : w.transforms e = some tr) :
    (ExampleSystem.run tk w).transforms e =
      some ⟨⟨fromAxisAngleZ (0.1 * tk.time.delta_seconds) * tr.iso.rotation,
             (fromAxisAngleZ (0.1 * tk.time.delta_seconds)).mulVec tr.iso.translation⟩,
            tr.scale⟩ :=
  run_transform_camera tk w e tr hc ht

theorem C2_left_mul_isometry_witness :
    (ExampleSystem.run tkTen wUi).transforms 0 =
      some ⟨⟨fromAxisAngleZ (0.1 * tkTen.time.delta_seconds) * trUnitX.iso.rotation,
             (fromAxisAngleZ (0.1 * tkTen.time.delta_seconds)).mulVec
               trUnitX.iso.translation⟩,
            trUnitX.scale⟩ :=
  C2_left_mul_isometry tkTen wUi 0 trUnitX rfl rfl

/-- C3: on every tick, an entity with both the camera marker and a
transform has its orientation replaced by the incremental z rotation of
0.1 times the elapsed time composed on the left with its current
orientation; an entity lacking either component is not updated. -/
theorem C3_orientation_update (tk : TickInput) (w : WorldState) (e : Entity) :
    (tk.camera e = true →
      ((ExampleSystem.run tk w).transforms e).map (fun t => t.iso.rotation)
        = (w.transforms e).map fun t =>
            fromAxisAngleZ (0.1 * tk.time.delta_seconds) * t.iso.rotation)
  ∧ (¬(tk.camera e = true ∧ (w.transforms e).isSome = true) →
      (ExampleSystem.run tk w).transforms e = w.transforms e) := by
  constructor
  · intro hc
    cases ht : w.transforms e with
    | none => rw [run_transform_none tk w e ht]; rfl
    | some tr => rw [run_transform_camera tk w e tr hc ht]; rfl
  · exact run_transform_skip tk w e

theorem C3_orientation_update_witness :
    ((ExampleSystem.run tkTen wUi).transforms 0).map (fun t => t.iso.rotation)
      = (wUi.transforms 0).map fun t =>
          fromAxisAngleZ (0.1 * tkTen.time.delta_seconds) * t.iso.rotation :=
  (C3_orientation_update tkTen wUi 0).1 rfl

/-- C4: the text display is mutated only on ticks where the frame number
is divisible by 20; on all other ticks the text-display store is
unchanged.  Over frame indices 0, 19, 20, 39, 40 on a world with a
resolved handle and a present text component, mutation occurs exactly at
0, 20 and 40. -/
theorem C4_fps_update_period :
    (∀ (tk : TickInput) (w : WorldState),
        tk.time.frame_number % 20 ≠ 0 →
        (ExampleSystem.run tk w).ui_text = w.ui_text)
  ∧ (ExampleSystem.run (tkFrame 0) wUi).ui_text ≠ wUi.ui_text
  ∧ (ExampleSystem.run (tkFrame 19) wUi).ui_text = wUi.ui_text
  ∧ (ExampleSystem.run (tkFrame 20) wUi).ui_text ≠ wUi.ui_text
  ∧ (ExampleSystem.run (tkFrame 39) wUi).ui_text = wUi.ui_text
  ∧ (ExampleSystem.run (tkFrame 40) wUi).ui_text ≠ wUi.ui_text := by
  refine ⟨?_, ?_, rfl, ?_, rfl, ?_⟩
  · intro tk w h
    rw [run_ui_text_def]
    split
    · rfl
    · split
      · rfl
      · rw [if_neg h]
  · intro h; exact absurd (congrFun h 0) (by decide)
  · intro h; exact absurd (congrFun h 0) (by decide)
  · intro h; exact absurd (congrFun h 0) (by decide)

theorem C4_fps_update_period_witness :
    (ExampleSystem.run (tkFrame 19) wUi).ui_text = wUi.ui_text :=
  C4_fps_update_period.1 (tkFrame 19) wUi (by decide)

/-- C5: the cached handle moves only from unresolved to resolved, the
transition happens exactly at the first tick whose lookup succeeds, and a
resolved handle is never changed by any later tick, even one whose lookup
would return a different entity. -/
theorem C5_cache_one_shot (ticks : List TickInput) (w : WorldState) :
    (∀ e : Entity, w.fps_display = some e →
        (ExampleSystem.runSeq ticks w).fps_display = some e)
  ∧ (w.fps_display = none →
        (ExampleSystem.runSeq ticks w).fps_display
          = ticks.findSome? fun tk => tk.finder "fps_text") :=
  ⟨fun e he => runSeq_fps_some ticks w e he,
   fun h0 => runSeq_fps_none ticks w h0⟩

theorem C5_cache_one_shot_witness :
    (ExampleSystem.runSeq [tkFind 5, tkFind 7] wUi).fps_display = some 0
  ∧ (ExampleSystem.runSeq [tkFind 5, tkFind 7] wNone).fps_display
      = List.findSome? (fun tk => tk.finder "fps_text") [tkFind 5, tkFind 7] :=
  ⟨(C5_cache_one_shot [tkFind 5, tkFind 7] wUi).1 0 rfl,
   (C5_cache_one_shot [tkFind 5, tkFind 7] wNone).2 rfl⟩

/-- C6: when the FPS text is updated, its content becomes the string FPS:
followed by the sampled value rounded to two decimal places; for the FPS
sample 62.345 (as a single-precision float) the resulting text is exactly
FPS: 62.35. -/
theorem C6_fps_text_format :
    (∀ (tk : TickInput) (w : WorldState) (e : Entity) (t : UiText),
        w.fps_display = some e → w.ui_text e = some t →
        tk.time.frame_number % 20 = 0 →
        (ExampleSystem.run tk w).ui_text e
          = some ⟨"FPS: " ++ fmtFixed2 tk.fps_counter.sampled_fps⟩)
  ∧ (ExampleSystem.run (tkFrame 0) wUi).ui_text 0 = some ⟨"FPS: 62.35"⟩ := by
  constructor
  · intro tk w e t he ht hf
    rw [run_ui_text_def, he]
    simp [ht, hf]
  · decide

theorem C6_fps_text_format_witness :
    (ExampleSystem.run (tkFrame 0) wUi).ui_text 0
      = some ⟨"FPS: " ++ fmtFixed2 (tkFrame 0).fps_counter.sampled_fps⟩ :=
  C6_fps_text_format.1 (tkFrame 0) wUi 0 ⟨""⟩ rfl rfl (by decide)

/-- C7: over any prefix of a sequence of ticks on which the named lookup
never succeeds, starting unresolved, the text-display store is never
mutated by the update system (and the model raises no error: the update is
a total function). -/
theorem C7_unresolved_never_mutates (ticks : List TickInput) (w : WorldState)
    (h0 : w.fps_display = none)
    (hn : ∀ tk ∈ ticks, tk.finder "fps_text" = none) (n : ℕ) :
    (ExampleSystem.runSeq (ticks.take n) w).ui_text = w.ui_text :=
  (runSeq_ui_unfound (ticks.take n) w h0
    (fun tk htk => hn tk (List.take_subset n ticks htk))).1

theorem C7_unresolved_never_mutates_witness :
    (ExampleSystem.runSeq ([tkFrame 0, tkFrame 1].take 2) wNone).ui_text
      = wNone.ui_text :=
  C7_unresolved_never_mutates [tkFrame 0, tkFrame 1] wNone rfl
    (by intro tk htk; fin_cases htk <;> rfl) 2

/-- C8: the update system is total and degrades each failing lookup to a
silent no-op: with no camera entities the transform store is unchanged,
with an unresolved handle and a failing lookup the text store is unchanged
and the cache stays unresolved, with a resolved entity lacking a text
component the text store is unchanged, and in every case the accumulated
angle still advances by 0.1 times the elapsed time. -/
theorem C8_silent_no_ops (tk : TickInput) (w : WorldState) :
    ((∀ e : Entity, tk.camera e = false) →
        (ExampleSystem.run tk w).transforms = w.transforms)
  ∧ (w.fps_display = none → tk.finder "fps_text" = none →
        (ExampleSystem.run tk w).ui_text = w.ui_text
          ∧ (ExampleSystem.run tk w).fps_display = none)
  ∧ (∀ e : Entity, w.fps_display = some e → w.ui_text e = none →
        (ExampleSystem.run tk w).ui_text = w.ui_text)
  ∧ (ExampleSystem.run tk w).state.camera_angle
      = w.state.camera_angle + 0.1 * tk.time.delta_seconds := by
  refine ⟨?_, ?_, ?_, rfl⟩
  · intro hcam
    funext e
    refine run_transform_skip tk w e (fun hx => ?_)
    have := hx.1
    rw [hcam e] at this
    exact Bool.false_ne_true this
  · intro h0 hf
    exact run_ui_unfound tk w h0 hf
  · intro e he ht
    rw [run_ui_text_def, he]
    simp [ht]

theorem C8_silent_no_ops_witness :
    (ExampleSystem.run (tkFrame 3) wNone).transforms = wNone.transforms
  ∧ (ExampleSystem.run (tkFrame 3) wNone).ui_text = wNone.ui_text :=
  ⟨(C8_silent_no_ops (tkFrame 3) wNone).1 (fun _ => rfl),
   ((C8_silent_no_ops (tkFrame 3) wNone).2.1 rfl rfl).1⟩

/-- C9: composing the per-tick rotations over any sequence of ticks whose
elapsed times sum to 10 seconds, applied to a camera transform whose
orientation is the identity, yields exactly the rotation of 1.0 radian
about the z axis: the per-tick composition is a homomorphism from summed
elapsed time to total rotation angle. -/
theorem C9_total_rotation (ticks : List TickInput) (w : WorldState)
    (e : Entity) (tr : Transform)
    (hc : ∀ tk ∈ ticks, tk.camera e = true)
    (ht : w.transforms e = some tr)
    (hr : tr.iso.rotation = 1)
    (hsum : totalDelta ticks = 10) :
    ((ExampleSystem.runSeq ticks w).transforms e).map (fun t => t.iso.rotation)
      = some (fromAxisAngleZ 1) := by
  rw [runSeq_transform_camera ticks w e tr hc ht]
  have hangle : (0.1 : ℝ) * totalDelta ticks = 1 := by rw [hsum]; norm_num
  simp [hangle, hr]

theorem C9_total_rotation_witness :
    ((ExampleSystem.runSeq [tkTen] wUi).transforms 0).map (fun t => t.iso.rotation)
      = some (fromAxisAngleZ 1) :=
  C9_total_rotation [tkTen] wUi 0 trUnitX
    (by intro tk htk; fin_cases htk; rfl) rfl rfl
    (by simp [totalDelta, tkTen])

/-- C10: the accumulated camera angle is write-only state: two runs on the
same tick inputs that differ only in the stored accumulated angle produce
identical transform updates, identical text-display updates and identical
cache transitions, and the angle increment itself is the same. -/
theorem C10_angle_write_only (tk : TickInput) (w : WorldState) (a b : ℝ) :
    (ExampleSystem.run tk { w with state := ⟨a⟩ }).transforms
      = (ExampleSystem.run tk { w with state := ⟨b⟩ }).transforms
  ∧ (ExampleSystem.run tk { w with state := ⟨a⟩ }).ui_text
      = (ExampleSystem.run tk { w with state := ⟨b⟩ }).ui_text
  ∧ (ExampleSystem.run tk { w with state := ⟨a⟩ }).fps_display
      = (ExampleSystem.run tk { w with state := ⟨b⟩ }).fps_display
  ∧ (ExampleSystem.run tk { w with state := ⟨a⟩ }).state.camera_angle - a
      = (ExampleSystem.run tk { w with state := ⟨b⟩ }).state.camera_angle - b :=
  ⟨rfl, rfl, rfl, by
    show a + 0.1 * tk.time.delta_seconds - a = b + 0.1 * tk.time.delta_seconds - b
    ring⟩
